import Mathlib

/-!
Shallow embedding of `tornado_simulator.py` (Tornado-Simulator repository).

Python floats are modelled as exact rationals (`ℚ`) for all code paths that
use only field arithmetic and comparisons; the one function that uses a
non-integer power, `lerp_radius`, is modelled over `ℝ` by its graph relation,
since real exponentiation is the mathematical content of `**` there.

Randomness (`random.uniform`, `random.random`) is modelled by passing the
underlying unit draws explicitly: CPython's `random.uniform(a, b)` returns
`a + (b - a) * u` with `u = random() ∈ [0, 1)`, which is embedded verbatim
as the function `uniform` below.
-/

namespace Tornado

/-- `WIDTH` from the configuration section (`WIDTH, HEIGHT = 960, 720`). -/
def WIDTH : ℕ := 960

/-- `HEIGHT` from the configuration section. -/
def HEIGHT : ℕ := 720

/-- Python `int()` applied to a rational: truncation toward zero. -/
def pyInt (q : ℚ) : ℤ :=
  if 0 ≤ q then ⌊q⌋ else ⌈q⌉

/-- `CENTER_X = WIDTH // 2`. -/
def CENTER_X : ℕ := WIDTH / 2

/-- `GROUND_Y = int(HEIGHT * 0.85)`. -/
def GROUND_Y : ℤ := pyInt ((HEIGHT : ℚ) * 0.85)

/-- `MAX_TORNADO_HEIGHT = int(HEIGHT * 0.75)`, as a rational for use in
particle arithmetic. -/
def MAX_TORNADO_HEIGHT : ℚ := (pyInt ((HEIGHT : ℚ) * 0.75) : ℚ)

/-- `PARTICLES_PER_LEVEL = 220`. -/
def PARTICLES_PER_LEVEL : ℕ := 220

/-- The IEEE-754 double value of `math.tau` (the float the Python code draws
angles from; it is the nearest double below the real `2π`). -/
def tau : ℚ := 884279719003555 / 140737488355328

/-- CPython's `random.uniform(a, b) = a + (b - a) * random()`, with the unit
draw `u ∈ [0, 1)` passed explicitly. -/
def uniform (a b u : ℚ) : ℚ := a + (b - a) * u

/-- One row of the `EF_LEVELS` table. -/
structure Level where
  swirl : ℚ
  lift : ℚ
  base_radius : ℚ
  debris : ℚ
  color : ℕ × ℕ × ℕ
deriving DecidableEq

/-- The `EF_LEVELS` dict, in insertion order (Python dicts preserve it). -/
def EF_LEVELS : List (String × Level) :=
  [("EF0", ⟨1.2, 120.0, 130.0, 0.12, (180, 200, 220)⟩),
   ("EF1", ⟨1.6, 160.0, 155.0, 0.18, (190, 210, 230)⟩),
   ("EF2", ⟨2.2, 200.0, 180.0, 0.26, (210, 220, 230)⟩),
   ("EF3", ⟨2.9, 240.0, 210.0, 0.35, (230, 230, 235)⟩),
   ("EF4", ⟨3.6, 300.0, 240.0, 0.47, (245, 240, 230)⟩),
   ("EF5", ⟨4.5, 360.0, 280.0, 0.60, (255, 250, 220)⟩)]

/-- `self.level_names = list(EF_LEVELS.keys())`. -/
def level_names : List String := EF_LEVELS.map Prod.fst

/-- The `Particle` dataclass. -/
structure Particle where
  radius_seed : ℚ
  altitude : ℚ
  angle : ℚ
  swirl_variation : ℚ
  brightness : ℚ
deriving DecidableEq

/-- `Particle.random()`: each field drawn by `random.uniform`; the five unit
draws are passed explicitly. -/
def Particle.random (uSeed uAlt uAngle uVar uBright : ℚ) : Particle :=
  { radius_seed := uniform 0.2 1.0 uSeed
    altitude := uniform 0.0 MAX_TORNADO_HEIGHT uAlt
    angle := uniform 0.0 tau uAngle
    swirl_variation := uniform 0.6 1.4 uVar
    brightness := uniform 0.5 1.0 uBright }

/-- `Particle.update(dt, swirl_speed, lift_speed, base_radius)`.  The three
unit draws used by the wrap branch (`random.uniform` for angle, radius_seed,
brightness) are passed explicitly.  `base_radius` is a parameter of the
Python method but is unused by it, and is kept here for fidelity. -/
def Particle.update (p : Particle) (dt swirl_speed lift_speed base_radius : ℚ)
    (uAngle uSeed uBright : ℚ) : Particle :=
  let angle := p.angle + swirl_speed * dt * p.swirl_variation
  let altitude := p.altitude + lift_speed * dt * (0.4 + 0.6 * p.radius_seed)
  let _ := base_radius
  if altitude > MAX_TORNADO_HEIGHT then
    { radius_seed := uniform 0.2 1.0 uSeed
      altitude := altitude - MAX_TORNADO_HEIGHT
      angle := uniform 0.0 tau uAngle
      swirl_variation := p.swirl_variation
      brightness := uniform 0.5 1.0 uBright }
  else
    { p with angle := angle, altitude := altitude }

/-- The size component of `Particle.project`:
`size = max(1, int(4 * (1 - height_ratio) + 1))` with
`height_ratio = self.altitude / MAX_TORNADO_HEIGHT`.  (The `x`, `y`
components involve `math.cos` and are not needed by any claim.) -/
def Particle.projectSize (p : Particle) : ℤ :=
  let height_ratio := p.altitude / MAX_TORNADO_HEIGHT
  max 1 (pyInt (4 * (1 - height_ratio) + 1))

/-- The spec's words for the render size (§4.2): `max(1, round(4·(1−h)+1))`.
Stated separately from the source-derived `Particle.projectSize` so the two
can be compared. -/
def renderSizeSpec (altitude : ℚ) : ℤ :=
  max 1 (round (4 * (1 - altitude / MAX_TORNADO_HEIGHT) + 1))

/-- One frame's inputs to a particle update: the time step, the level
parameters read by `TornadoSimulator.update`, and the three unit draws
consumed if the wrap branch fires. -/
structure Tick where
  dt : ℚ
  swirl : ℚ
  lift : ℚ
  base_radius : ℚ
  uAngle : ℚ
  uSeed : ℚ
  uBright : ℚ
deriving DecidableEq

/-- One particle update driven by a `Tick`. -/
def stepTick (p : Particle) (t : Tick) : Particle :=
  p.update t.dt t.swirl t.lift t.base_radius t.uAngle t.uSeed t.uBright

/-- A particle after a sequence of update ticks. -/
def runTicks (p : Particle) (ts : List Tick) : Particle :=
  ts.foldl stepTick p

/-- The `Debris` dataclass. -/
structure Debris where
  x : ℚ
  y : ℚ
  velocity_x : ℚ
  velocity_y : ℚ
  lifetime : ℚ
deriving DecidableEq

/-- `Debris.update(dt)`: gravity on `velocity_y` first, then position is
integrated with the updated vertical velocity, then `lifetime -= dt`. -/
def Debris.update (d : Debris) (dt : ℚ) : Debris :=
  let vy := d.velocity_y + 220 * dt
  { x := d.x + d.velocity_x * dt
    y := d.y + vy * dt
    velocity_x := d.velocity_x
    velocity_y := vy
    lifetime := d.lifetime - dt }

/-- The debris sweep in `TornadoSimulator.update`: every live debris is
updated, then those with `lifetime <= 0 or y > HEIGHT` are removed. -/
def debrisSweep (dt : ℚ) (l : List Debris) : List Debris :=
  (l.map (Debris.update · dt)).filter
    (fun d => !(decide (d.lifetime ≤ 0) || decide (d.y > (HEIGHT : ℚ))))

/-- The debris list after a sequence of sweeps (no spawns interleaved). -/
def debrisRun (l : List Debris) (dts : List ℚ) : List Debris :=
  dts.foldl (fun acc dt => debrisSweep dt acc) l

/-- `self.level_index = (self.level_index + 1) % len(self.level_names)`
(the SPACE/RETURN handler in `TornadoSimulator.run`). -/
def nextLevelIndex (i : ℕ) : ℕ := (i + 1) % level_names.length

/-- The assignment `self.level_index = min(event.key - pygame.K_0,
len(self.level_names) - 1)` of the digit-key branch in
`TornadoSimulator.run`, as a function of `n = event.key - pygame.K_0`.
It only runs behind the guard `pygame.K_0 <= event.key <= pygame.K_5`
(see `handleKeyDown`). -/
def selectLevelIndex (n : ℕ) : ℕ := min n (level_names.length - 1)

/-- `pygame.K_RETURN` (ASCII carriage return). -/
def K_RETURN : ℕ := 13

/-- `pygame.K_ESCAPE` (ASCII escape). -/
def K_ESCAPE : ℕ := 27

/-- `pygame.K_SPACE` (ASCII space). -/
def K_SPACE : ℕ := 32

/-- `pygame.K_0` (ASCII digit zero). -/
def K_0 : ℕ := 48

/-- `pygame.K_5` (ASCII digit five). -/
def K_5 : ℕ := 53

/-- The effect of one KEYDOWN event on `self.level_index` in
`TornadoSimulator.run`: ESCAPE stops the loop (index untouched), SPACE or
RETURN advances cyclically, a key inside the guard
`pygame.K_0 <= event.key <= pygame.K_5` selects directly, and every other
key matches no branch, leaving the index unchanged. -/
def handleKeyDown (i : ℕ) (key : ℕ) : ℕ :=
  if key = K_ESCAPE then i
  else if key = K_SPACE ∨ key = K_RETURN then nextLevelIndex i
  else if K_0 ≤ key ∧ key ≤ K_5 then selectLevelIndex (key - K_0)
  else i

/-- The mutable simulator state set up by `TornadoSimulator.__init__`
(rendering resources excluded). -/
structure SimState where
  particles : List Particle
  debris_particles : List Debris
  level_index : ℕ
  time : ℚ

/-- `TornadoSimulator.__init__`: 220 random particles (their unit draws are
passed in), no debris, `level_index = 2` (\"Default to EF2\"), `time = 0`. -/
def initSimState (particles : List Particle) : SimState :=
  { particles := particles
    debris_particles := []
    level_index := 2
    time := 0 }

/-- `TornadoSimulator.current_level`: the `EF_LEVELS` entry named by
`level_names[level_index]`. -/
def currentLevel (i : ℕ) : Option Level :=
  (level_names.get? i).bind (fun n => EF_LEVELS.lookup n)

/-- The graph of `lerp_radius(seed, base_radius, height_ratio)` over the
reals, mirroring the source line by line:
`neck_ratio = 0.05 + 0.35 * (1 - seed)`;
`width = base_radius * (1 - height_ratio) ** (0.4 + neck_ratio)`;
result `width * (0.6 + 0.4 * seed)`.  Python's float `**` is real
exponentiation, so the function is stated as a relation over `ℝ`. -/
def lerp_radius_rel (seed base_radius height_ratio r : ℝ) : Prop :=
  let neck_ratio := 0.05 + 0.35 * (1 - seed)
  let width := base_radius * (1 - height_ratio) ^ ((0.4 : ℝ) + neck_ratio)
  r = width * (0.6 + 0.4 * seed)

/-- A tick whose lift increment cannot overshoot a full wrap
(`lift · dt ≤ H_max`) and whose re-seed unit draw is a genuine
`random()` result. -/
def Tick.bounded (t : Tick) : Prop :=
  0 ≤ t.dt ∧ 0 ≤ t.lift ∧ t.lift * t.dt ≤ MAX_TORNADO_HEIGHT ∧
    0 ≤ t.uSeed ∧ t.uSeed < 1

/-- A particle whose altitude is in `[0, H_max]` and whose radius seed is in
`[0.2, 1]` (the ranges `Particle.random` and the wrap re-seed establish). -/
def Particle.inBounds (p : Particle) : Prop :=
  0 ≤ p.altitude ∧ p.altitude ≤ MAX_TORNADO_HEIGHT ∧
    0.2 ≤ p.radius_seed ∧ p.radius_seed ≤ 1

/-! ### Helper lemmas -/

/-- `MAX_TORNADO_HEIGHT` evaluates to `540`. -/
lemma MAX_TORNADO_HEIGHT_eq : MAX_TORNADO_HEIGHT = 540 := by
  norm_num [MAX_TORNADO_HEIGHT, pyInt, HEIGHT]

/-- `Particle.update` never writes `swirl_variation`. -/
lemma update_swirl_variation (p : Particle) (dt sw lf br uA uS uB : ℚ) :
    (p.update dt sw lf br uA uS uB).swirl_variation = p.swirl_variation := by
  simp only [Particle.update]
  split <;> rfl

/-- Unfolding `Particle.update` in the branch where the wrap fires. -/
lemma update_of_wrap (p : Particle) (dt sw lf br uA uS uB : ℚ)
    (h : MAX_TORNADO_HEIGHT < p.altitude + lf * dt * (0.4 + 0.6 * p.radius_seed)) :
    p.update dt sw lf br uA uS uB =
      { radius_seed := uniform 0.2 1.0 uS
        altitude := p.altitude + lf * dt * (0.4 + 0.6 * p.radius_seed) - MAX_TORNADO_HEIGHT
        angle := uniform 0.0 tau uA
        swirl_variation := p.swirl_variation
        brightness := uniform 0.5 1.0 uB } := by
  simp only [Particle.update]
  rw [if_pos h]

/-- Unfolding `Particle.update` in the branch where the wrap does not fire. -/
lemma update_of_no_wrap (p : Particle) (dt sw lf br uA uS uB : ℚ)
    (h : p.altitude + lf * dt * (0.4 + 0.6 * p.radius_seed) ≤ MAX_TORNADO_HEIGHT) :
    p.update dt sw lf br uA uS uB =
      { p with angle := p.angle + sw * dt * p.swirl_variation
               altitude := p.altitude + lf * dt * (0.4 + 0.6 * p.radius_seed) } := by
  simp only [Particle.update]
  rw [if_neg (not_lt.mpr h)]

end Tornado

namespace Tornado

/-! ### Claim theorems -/

/-- One bounded tick preserves `Particle.inBounds`. -/
lemma stepTick_inBounds (p : Particle) (t : Tick)
    (hp : p.inBounds) (ht : t.bounded) : (stepTick p t).inBounds := by
  obtain ⟨ha0, ha1, hs0, hs1⟩ := hp
  obtain ⟨hdt, hlf, hld, hu0, hu1⟩ := ht
  have hfac0 : (0 : ℚ) ≤ 0.4 + 0.6 * p.radius_seed := by nlinarith
  have hfac1 : 0.4 + 0.6 * p.radius_seed ≤ 1 := by nlinarith
  have hinc0 : (0 : ℚ) ≤ t.lift * t.dt * (0.4 + 0.6 * p.radius_seed) :=
    mul_nonneg (mul_nonneg hlf hdt) hfac0
  have hinc1 : t.lift * t.dt * (0.4 + 0.6 * p.radius_seed) ≤ MAX_TORNADO_HEIGHT := by
    nlinarith [mul_nonneg hlf hdt]
  rw [stepTick]
  by_cases hw : MAX_TORNADO_HEIGHT <
      p.altitude + t.lift * t.dt * (0.4 + 0.6 * p.radius_seed)
  · rw [update_of_wrap p t.dt t.swirl t.lift t.base_radius t.uAngle t.uSeed t.uBright hw]
    refine ⟨by dsimp only; linarith, by dsimp only; linarith, ?_, ?_⟩
    · show (0.2 : ℚ) ≤ uniform 0.2 1.0 t.uSeed
      rw [uniform]; nlinarith
    · show uniform 0.2 1.0 t.uSeed ≤ 1
      rw [uniform]; nlinarith
  · rw [update_of_no_wrap p t.dt t.swirl t.lift t.base_radius t.uAngle t.uSeed t.uBright
      (not_lt.mp hw)]
    exact ⟨by dsimp only; linarith, by dsimp only; linarith [not_lt.mp hw], hs0, hs1⟩

/-- Any sequence of bounded ticks preserves `Particle.inBounds`. -/
lemma runTicks_inBounds (ts : List Tick) :
    ∀ p : Particle, p.inBounds → (∀ t ∈ ts, t.bounded) → (runTicks p ts).inBounds := by
  induction ts with
  | nil => intro p hp _; exact hp
  | cons t ts ih =>
      intro p hp hts
      have h1 : (runTicks p (t :: ts)) = runTicks (stepTick p t) ts := rfl
      rw [h1]
      exact ih (stepTick p t) (stepTick_inBounds p t hp (hts t (List.mem_cons_self t ts)))
        (fun u hu => hts u (List.mem_cons_of_mem t hu))

/-- C1 counterexample: a particle that starts inside `[0, H_max]` with a
valid radius seed, after a single tick with EF5 level parameters and
`dt = 2 ≥ 0`, has altitude `680 > H_max`: the single subtraction of
`H_max` does not restore the claimed interval for arbitrary `dt ≥ 0`. -/
theorem C1_altitude_wrap_counterexample :
    (⟨1, 500, 0, 1, 0.7⟩ : Particle).inBounds ∧
    (0 : ℚ) ≤ (2 : ℚ) ∧
    ¬ ((runTicks ⟨1, 500, 0, 1, 0.7⟩
        [⟨2, 4.5, 360.0, 280.0, 1/2, 1/2, 1/2⟩]).altitude ≤ MAX_TORNADO_HEIGHT) := by
  refine ⟨?_, by norm_num, ?_⟩
  · refine ⟨by norm_num, ?_, by norm_num, by norm_num⟩
    rw [MAX_TORNADO_HEIGHT_eq]; norm_num
  · have h : (runTicks ⟨1, 500, 0, 1, 0.7⟩
        [⟨2, 4.5, 360.0, 280.0, 1/2, 1/2, 1/2⟩]).altitude = 680 := by
      norm_num [runTicks, stepTick, Particle.update, MAX_TORNADO_HEIGHT_eq, List.foldl]
    rw [h, MAX_TORNADO_HEIGHT_eq]
    norm_num

/-- C1 amended: for every particle starting with altitude in `[0, H_max]`
and radius seed in `[0.2, 1]`, and any number of update ticks each with
`dt ≥ 0`, `lift ≥ 0`, per-tick lift distance `lift · dt ≤ H_max` and a unit
re-seed draw, the altitude stays in `[0, H_max]`; and whenever an update
pushes the altitude above `H_max`, it wraps by subtracting `H_max` and
re-randomizes angle, radius seed and brightness (swirl variation kept). -/
theorem C1_altitude_wrap_invariant :
    (∀ (p : Particle) (ts : List Tick),
        p.inBounds → (∀ t ∈ ts, t.bounded) →
        0 ≤ (runTicks p ts).altitude ∧
          (runTicks p ts).altitude ≤ MAX_TORNADO_HEIGHT) ∧
    (∀ (p : Particle) (t : Tick),
        MAX_TORNADO_HEIGHT < p.altitude + t.lift * t.dt * (0.4 + 0.6 * p.radius_seed) →
        stepTick p t =
          { radius_seed := uniform 0.2 1.0 t.uSeed
            altitude := p.altitude + t.lift * t.dt * (0.4 + 0.6 * p.radius_seed)
              - MAX_TORNADO_HEIGHT
            angle := uniform 0.0 tau t.uAngle
            swirl_variation := p.swirl_variation
            brightness := uniform 0.5 1.0 t.uBright }) := by
  constructor
  · intro p ts hp hts
    have h := runTicks_inBounds ts p hp hts
    exact ⟨h.1, h.2.1⟩
  · intro p t hw
    exact update_of_wrap p t.dt t.swirl t.lift t.base_radius t.uAngle t.uSeed t.uBright hw

/-- Witness for C1 (amended) at a concrete particle and two concrete
EF2-parameter ticks, the second of which makes the altitude wrap. -/
theorem C1_altitude_wrap_invariant_witness :
    0 ≤ (runTicks ⟨1, 500, 0, 1, 0.7⟩
        [⟨1/4, 2.2, 200.0, 180.0, 1/2, 1/2, 1/2⟩,
         ⟨1/4, 2.2, 200.0, 180.0, 1/2, 1/2, 1/2⟩]).altitude ∧
    (runTicks ⟨1, 500, 0, 1, 0.7⟩
        [⟨1/4, 2.2, 200.0, 180.0, 1/2, 1/2, 1/2⟩,
         ⟨1/4, 2.2, 200.0, 180.0, 1/2, 1/2, 1/2⟩]).altitude ≤ MAX_TORNADO_HEIGHT :=
  C1_altitude_wrap_invariant.1 ⟨1, 500, 0, 1, 0.7⟩
    [⟨1/4, 2.2, 200.0, 180.0, 1/2, 1/2, 1/2⟩, ⟨1/4, 2.2, 200.0, 180.0, 1/2, 1/2, 1/2⟩]
    (by refine ⟨by norm_num, ?_, by norm_num, by norm_num⟩
        rw [MAX_TORNADO_HEIGHT_eq]; norm_num)
    (by intro t ht
        have h2 : t = ⟨1/4, 2.2, 200.0, 180.0, 1/2, 1/2, 1/2⟩ := by
          simp only [List.mem_cons, List.not_mem_nil, or_false] at ht
          rcases ht with h | h <;> exact h
        rw [h2]
        refine ⟨by norm_num, by norm_num, ?_, by norm_num, by norm_num⟩
        rw [MAX_TORNADO_HEIGHT_eq]; norm_num)

/-- C7 counterexample: a particle whose angle `6.25` lies in `[0, 2π)`
(below the code's `math.tau`), after one EF5 tick with `dt = 1/60` that
does not wrap, has angle `6.355 ≥ 2π`: updates never renormalize the
angle, so it does not stay in `[0, 2π)`. -/
theorem C7_angle_range_counterexample :
    0 ≤ (⟨0.5, 0, 6.25, 1.4, 0.7⟩ : Particle).angle ∧
    (⟨0.5, 0, 6.25, 1.4, 0.7⟩ : Particle).angle < tau ∧
    ¬ ((stepTick ⟨0.5, 0, 6.25, 1.4, 0.7⟩ ⟨1/60, 4.5, 360.0, 280.0, 0, 0, 0⟩).angle < tau) := by
  refine ⟨by norm_num, by rw [tau]; norm_num, ?_⟩
  have h : (stepTick ⟨0.5, 0, 6.25, 1.4, 0.7⟩
      ⟨1/60, 4.5, 360.0, 280.0, 0, 0, 0⟩).angle = 6.355 := by
    norm_num [stepTick, Particle.update, MAX_TORNADO_HEIGHT_eq]
  rw [h, tau]
  norm_num

/-- C7 amended: the angle lies in `[0, 2π)` after initial construction
(`random.uniform(0, tau)` with a unit draw in `[0, 1)`), and update ticks
with nonnegative `dt`, swirl rate and re-seed draw keep it nonnegative
(for a particle with nonnegative swirl variation), but do not keep it
below `2π`. -/
theorem C7_angle_nonneg :
    (∀ uSeed uAlt uAngle uVar uBright : ℚ, 0 ≤ uAngle → uAngle < 1 →
        0 ≤ (Particle.random uSeed uAlt uAngle uVar uBright).angle ∧
        (Particle.random uSeed uAlt uAngle uVar uBright).angle < tau) ∧
    (∀ (p : Particle) (ts : List Tick),
        0 ≤ p.angle → 0 ≤ p.swirl_variation →
        (∀ t ∈ ts, 0 ≤ t.dt ∧ 0 ≤ t.swirl ∧ 0 ≤ t.uAngle) →
        0 ≤ (runTicks p ts).angle) := by
  have htau : (0 : ℚ) < tau := by rw [tau]; norm_num
  constructor
  · intro uSeed uAlt uAngle uVar uBright hu0 hu1
    constructor
    · show (0 : ℚ) ≤ uniform 0.0 tau uAngle
      rw [uniform]
      nlinarith
    · show uniform 0.0 tau uAngle < tau
      rw [uniform]
      nlinarith
  · intro p ts
    induction ts generalizing p with
    | nil => intro h _ _; exact h
    | cons t ts ih =>
        intro hang hvar hts
        obtain ⟨hdt, hsw, hu⟩ := hts t (List.mem_cons_self t ts)
        have h1 : runTicks p (t :: ts) = runTicks (stepTick p t) ts := rfl
        rw [h1]
        have hvar' : 0 ≤ (stepTick p t).swirl_variation := by
          rw [stepTick, update_swirl_variation]
          exact hvar
        have hang' : 0 ≤ (stepTick p t).angle := by
          rw [stepTick]
          by_cases hw : MAX_TORNADO_HEIGHT <
              p.altitude + t.lift * t.dt * (0.4 + 0.6 * p.radius_seed)
          · rw [update_of_wrap p t.dt t.swirl t.lift t.base_radius t.uAngle t.uSeed
              t.uBright hw]
            show (0 : ℚ) ≤ uniform 0.0 tau t.uAngle
            rw [uniform]
            nlinarith
          · rw [update_of_no_wrap p t.dt t.swirl t.lift t.base_radius t.uAngle t.uSeed
              t.uBright (not_lt.mp hw)]
            show (0 : ℚ) ≤ p.angle + t.swirl * t.dt * p.swirl_variation
            nlinarith [mul_nonneg hsw hdt]
        exact ih (stepTick p t) hang' hvar' (fun u hu => hts u (List.mem_cons_of_mem t hu))

/-- Witness for C7 (amended): concrete construction draw and one concrete
tick keep the angle nonnegative and the initial angle below `2π`. -/
theorem C7_angle_nonneg_witness :
    (0 ≤ (Particle.random 0.5 0.5 (1/2) 0.5 0.5).angle ∧
      (Particle.random 0.5 0.5 (1/2) 0.5 0.5).angle < tau) ∧
    0 ≤ (runTicks ⟨0.5, 0, 6.25, 1.4, 0.7⟩ [⟨1/60, 4.5, 360.0, 280.0, 0, 0, 0⟩]).angle :=
  ⟨C7_angle_nonneg.1 0.5 0.5 (1/2) 0.5 0.5 (by norm_num) (by norm_num),
   C7_angle_nonneg.2 ⟨0.5, 0, 6.25, 1.4, 0.7⟩ [⟨1/60, 4.5, 360.0, 280.0, 0, 0, 0⟩]
     (by norm_num) (by norm_num)
     (by intro t ht
         simp only [List.mem_cons, List.not_mem_nil, or_false] at ht
         rw [ht]
         refine ⟨by norm_num, by norm_num, by norm_num⟩)⟩

/-- C8 counterexample: at altitude `310.5` (height ratio `0.575`) the code
computes `max(1, int(2.7)) = 2`, while the spec's formula
`max(1, round(2.7))` gives `3`. -/
theorem C8_render_size_counterexample :
    Particle.projectSize ⟨0.5, 621/2, 0, 1, 0.7⟩ = 2 ∧
    renderSizeSpec ((⟨0.5, 621/2, 0, 1, 0.7⟩ : Particle).altitude) = 3 ∧
    Particle.projectSize ⟨0.5, 621/2, 0, 1, 0.7⟩ ≠
      renderSizeSpec ((⟨0.5, 621/2, 0, 1, 0.7⟩ : Particle).altitude) := by
  have h1 : Particle.projectSize ⟨0.5, 621/2, 0, 1, 0.7⟩ = 2 := by
    have harg : (4 : ℚ) * (1 - (621/2) / MAX_TORNADO_HEIGHT) + 1 = 27/10 := by
      rw [MAX_TORNADO_HEIGHT_eq]
      norm_num
    rw [Particle.projectSize]
    show max 1 (pyInt (4 * (1 - (621/2) / MAX_TORNADO_HEIGHT) + 1)) = 2
    rw [harg, pyInt, if_pos (by norm_num)]
    norm_num
  have h2 : renderSizeSpec ((⟨0.5, 621/2, 0, 1, 0.7⟩ : Particle).altitude) = 3 := by
    rw [renderSizeSpec]
    show max 1 (round ((4 : ℚ) * (1 - (621/2) / MAX_TORNADO_HEIGHT) + 1)) = 3
    have harg : (4 : ℚ) * (1 - (621/2) / MAX_TORNADO_HEIGHT) + 1 = 27/10 := by
      rw [MAX_TORNADO_HEIGHT_eq]
      norm_num
    rw [harg, round_eq]
    norm_num
  exact ⟨h1, h2, by rw [h1, h2]; norm_num⟩

/-- C8 amended: for altitude in `[0, H_max]` the render size is
`max(1, ⌊4·(1−heightRatio)+1⌋)` — Python's `int()` truncates, which on the
nonnegative argument equals the floor, not rounding to nearest. -/
theorem C8_render_size_floor (p : Particle)
    (_h0 : 0 ≤ p.altitude) (h1 : p.altitude ≤ MAX_TORNADO_HEIGHT) :
    Particle.projectSize p = max 1 ⌊4 * (1 - p.altitude / MAX_TORNADO_HEIGHT) + 1⌋ := by
  have hM : (0 : ℚ) < MAX_TORNADO_HEIGHT := by rw [MAX_TORNADO_HEIGHT_eq]; norm_num
  have hr : p.altitude / MAX_TORNADO_HEIGHT ≤ 1 := by
    rw [div_le_one hM]
    exact h1
  have harg : (0 : ℚ) ≤ 4 * (1 - p.altitude / MAX_TORNADO_HEIGHT) + 1 := by linarith
  rw [Particle.projectSize]
  show max 1 (pyInt (4 * (1 - p.altitude / MAX_TORNADO_HEIGHT) + 1)) = _
  rw [pyInt, if_pos harg]

/-- Witness for C8 (amended) at a concrete ground-level particle. -/
theorem C8_render_size_floor_witness :
    Particle.projectSize ⟨0.5, 0, 0, 1, 0.7⟩ =
      max 1 ⌊4 * (1 - (⟨0.5, 0, 0, 1, 0.7⟩ : Particle).altitude / MAX_TORNADO_HEIGHT) + 1⌋ :=
  C8_render_size_floor ⟨0.5, 0, 0, 1, 0.7⟩ (by norm_num)
    (by rw [MAX_TORNADO_HEIGHT_eq]; norm_num)

/-- C2: for every seed in `[0.2, 1]`, base radius `> 0` and height ratio in
`[0, 1]`, the radius profile is `0` at height ratio `1`, strictly positive
below `1`, and monotonically non-increasing in the height ratio. -/
theorem C2_radius_profile (seed base_radius height_ratio r : ℝ)
    (hs0 : 0.2 ≤ seed) (hs1 : seed ≤ 1) (hb : 0 < base_radius)
    (_hh0 : 0 ≤ height_ratio) (_hh1 : height_ratio ≤ 1)
    (hrel : lerp_radius_rel seed base_radius height_ratio r) :
    (height_ratio = 1 → r = 0) ∧
    (height_ratio < 1 → 0 < r) ∧
    (∀ h₂ r₂, height_ratio ≤ h₂ → h₂ ≤ 1 →
        lerp_radius_rel seed base_radius h₂ r₂ → r₂ ≤ r) := by
  simp only [lerp_radius_rel] at hrel
  have he : (0 : ℝ) < (0.4 : ℝ) + (0.05 + 0.35 * (1 - seed)) := by nlinarith
  have hc : (0 : ℝ) < 0.6 + 0.4 * seed := by nlinarith
  refine ⟨?_, ?_, ?_⟩
  · intro h1
    rw [hrel, h1]
    rw [show (1 : ℝ) - 1 = 0 by norm_num]
    rw [Real.zero_rpow (ne_of_gt he)]
    ring
  · intro hlt
    have hpow : (0 : ℝ) < (1 - height_ratio) ^ ((0.4 : ℝ) + (0.05 + 0.35 * (1 - seed))) :=
      Real.rpow_pos_of_pos (by linarith) _
    rw [hrel]
    positivity
  · intro h₂ r₂ hle hle1 hrel₂
    simp only [lerp_radius_rel] at hrel₂
    have hpow : (1 - h₂) ^ ((0.4 : ℝ) + (0.05 + 0.35 * (1 - seed))) ≤
        (1 - height_ratio) ^ ((0.4 : ℝ) + (0.05 + 0.35 * (1 - seed))) :=
      Real.rpow_le_rpow (by linarith) (by linarith) (le_of_lt he)
    rw [hrel, hrel₂]
    have hb' := le_of_lt hb
    have hc' := le_of_lt hc
    nlinarith [mul_le_mul_of_nonneg_left hpow hb']

/-- Witness for C2 at seed `1`, base radius `1`, height ratios `0` and `1`:
the profile value at the ground is `1 > 0` and at the apex is `0`. -/
theorem C2_radius_profile_witness :
    lerp_radius_rel 1 1 0 1 ∧ (0 : ℝ) < 1 ∧ ((1 : ℝ) = 1 → (0 : ℝ) ≤ 1) := by
  have hrel : lerp_radius_rel 1 1 0 1 := by
    simp only [lerp_radius_rel]
    norm_num
  have h := C2_radius_profile 1 1 0 1 (by norm_num) le_rfl one_pos le_rfl (by norm_num) hrel
  exact ⟨hrel, h.2.1 (by norm_num), fun _ => le_of_lt (h.2.1 (by norm_num))⟩

/-- Membership in one debris sweep: exactly the updated entities whose
lifetime is still positive and that are still above the canvas bottom. -/
lemma mem_debrisSweep (dt : ℚ) (l : List Debris) (d : Debris) :
    d ∈ debrisSweep dt l ↔
      (∃ d₀ ∈ l, d = d₀.update dt) ∧ 0 < d.lifetime ∧ d.y ≤ (HEIGHT : ℚ) := by
  simp only [debrisSweep, List.mem_filter, List.mem_map, Bool.not_eq_true', Bool.or_eq_false_iff,
    decide_eq_false_iff_not, not_le, not_lt]
  constructor
  · rintro ⟨⟨d₀, hd₀, hupd⟩, hlt, hy⟩
    exact ⟨⟨d₀, hd₀, hupd.symm⟩, hlt, hy⟩
  · rintro ⟨⟨d₀, hd₀, hupd⟩, hlt, hy⟩
    exact ⟨⟨d₀, hd₀, hupd.symm⟩, hlt, hy⟩

/-- A survivor of a sequence of sweeps descends from an initial entity, its
lifetime lags the initial one by the total elapsed time, and (when at least
one sweep happened) it passed the last sweep's lifetime filter. -/
lemma debrisRun_mem (dts : List ℚ) :
    ∀ (l : List Debris) (d : Debris), d ∈ debrisRun l dts →
      (∃ d₀ ∈ l, d.lifetime = d₀.lifetime - dts.sum) ∧ (dts ≠ [] → 0 < d.lifetime) := by
  induction dts with
  | nil =>
      intro l d hd
      exact ⟨⟨d, hd, by simp⟩, fun h => absurd rfl h⟩
  | cons dt dts ih =>
      intro l d hd
      have h1 : debrisRun l (dt :: dts) = debrisRun (debrisSweep dt l) dts := rfl
      rw [h1] at hd
      obtain ⟨⟨d₁, hd₁, hlife⟩, hpos⟩ := ih (debrisSweep dt l) d hd
      obtain ⟨⟨d₀, hd₀, hupd⟩, hlt, _⟩ := (mem_debrisSweep dt l d₁).mp hd₁
      refine ⟨⟨d₀, hd₀, ?_⟩, fun _ => ?_⟩
      · rw [hlife, hupd]
        show d₀.lifetime - dt - dts.sum = d₀.lifetime - (dt :: dts).sum
        rw [List.sum_cons]
        ring
      · rcases dts with _ | ⟨dt', dts'⟩
        · have hmem : d ∈ debrisSweep dt l := hd
          exact ((mem_debrisSweep dt l d).mp hmem).2.1
        · exact hpos (by simp)

/-- C4: a debris update decrements lifetime by exactly `dt`; a sweep keeps
exactly the updated entities with `lifetime > 0` and `y ≤ HEIGHT` (i.e.
removes an entity exactly when, after its update, `lifetime ≤ 0` or `y`
exceeds the canvas height); and a debris entity with lifetime `1` that
receives sweeps totalling at least `1` second of simulated time is gone. -/
theorem C4_debris_lifecycle :
    (∀ (d : Debris) (dt : ℚ), (d.update dt).lifetime = d.lifetime - dt) ∧
    (∀ (dt : ℚ) (l : List Debris) (d : Debris),
        d ∈ debrisSweep dt l ↔
          (∃ d₀ ∈ l, d = d₀.update dt) ∧ 0 < d.lifetime ∧ d.y ≤ (HEIGHT : ℚ)) ∧
    (∀ (d : Debris) (dts : List ℚ),
        d.lifetime = 1 → 1 ≤ dts.sum → debrisRun [d] dts = []) := by
  refine ⟨fun d dt => rfl, mem_debrisSweep, ?_⟩
  intro d dts hlife hsum
  rw [List.eq_nil_iff_forall_not_mem]
  intro d' hd'
  obtain ⟨⟨d₀, hd₀, hl⟩, hpos⟩ := debrisRun_mem dts [d] d' hd'
  have hne : dts ≠ [] := by
    intro h
    rw [h] at hsum
    norm_num at hsum
  have h0 : d₀ = d := by simpa using hd₀
  subst h0
  have := hpos hne
  rw [hl, hlife] at this
  linarith

/-- Witness for C4: a concrete debris entity with lifetime `1` is removed
by two sweeps of `1/2` second each. -/
theorem C4_debris_lifecycle_witness :
    debrisRun [⟨0, 0, 0, 0, 1⟩] [1/2, 1/2] = [] :=
  C4_debris_lifecycle.2.2 ⟨0, 0, 0, 0, 1⟩ [1/2, 1/2] rfl (by norm_num)

/-- C5: processing a "next level" command while the current level index is
`i` sets the level index to `(i + 1) % 6`; advancing from index 5 (EF5)
yields index 0 (EF0). -/
theorem C5_next_level_cyclic :
    (∀ i : ℕ, nextLevelIndex i = (i + 1) % 6) ∧ nextLevelIndex 5 = 0 :=
  ⟨fun _ => rfl, rfl⟩

/-- C6 counterexample: pressing the digit key '9' (`K_0 + 9`) while the
level index is 2 matches no branch of the keydown handler — the guard
`pygame.K_0 <= event.key <= pygame.K_5` rejects it — so the index stays 2;
it is not set to 5. -/
theorem C6_select_level_counterexample :
    handleKeyDown 2 (K_0 + 9) = 2 ∧ ¬ (handleKeyDown 2 (K_0 + 9) = 5) := by
  have h : handleKeyDown 2 (K_0 + 9) = 2 := rfl
  exact ⟨h, by rw [h]; omega⟩

/-- C6 amended: a digit key for an index `N ≥ 6` never reaches the
selection assignment — the guard accepts only digit keys 0 through 5 — so
out-of-range digit keys leave the level index unchanged (and no error is
raised); for the accepted digits `N ≤ 5` the assignment
`min(N, len(level_names) - 1)` sets the index to exactly `N`. -/
theorem C6_select_level_guarded :
    (∀ i n : ℕ, 6 ≤ n → handleKeyDown i (K_0 + n) = i) ∧
    (∀ i n : ℕ, n ≤ 5 →
        handleKeyDown i (K_0 + n) = selectLevelIndex n ∧ selectLevelIndex n = n) := by
  have hlen : level_names.length = 6 := rfl
  constructor
  · intro i n hn
    have h1 : ¬ (K_0 + n = K_ESCAPE) := by rw [K_0, K_ESCAPE]; omega
    have h2 : ¬ (K_0 + n = K_SPACE ∨ K_0 + n = K_RETURN) := by
      rw [K_0, K_SPACE, K_RETURN]; omega
    have h3 : ¬ (K_0 ≤ K_0 + n ∧ K_0 + n ≤ K_5) := by rw [K_0, K_5]; omega
    rw [handleKeyDown, if_neg h1, if_neg h2, if_neg h3]
  · intro i n hn
    have h1 : ¬ (K_0 + n = K_ESCAPE) := by rw [K_0, K_ESCAPE]; omega
    have h2 : ¬ (K_0 + n = K_SPACE ∨ K_0 + n = K_RETURN) := by
      rw [K_0, K_SPACE, K_RETURN]; omega
    have h3 : K_0 ≤ K_0 + n ∧ K_0 + n ≤ K_5 := by rw [K_0, K_5]; omega
    constructor
    · rw [handleKeyDown, if_neg h1, if_neg h2, if_pos h3, Nat.add_sub_cancel_left]
    · rw [selectLevelIndex, hlen]
      omega

/-- Witness for C6 (amended): digit key '7' leaves index 0 unchanged, and
digit key '3' selects index 3. -/
theorem C6_select_level_guarded_witness :
    handleKeyDown 0 (K_0 + 7) = 0 ∧
    handleKeyDown 0 (K_0 + 3) = selectLevelIndex 3 ∧ selectLevelIndex 3 = 3 :=
  ⟨C6_select_level_guarded.1 0 7 (by norm_num),
   (C6_select_level_guarded.2 0 3 (by norm_num)).1,
   (C6_select_level_guarded.2 0 3 (by norm_num)).2⟩

/-- C9: a particle update never modifies `swirl_variation`, in both the
plain branch and the wrap/re-seed branch. -/
theorem C9_swirl_variation_frame (p : Particle) (dt sw lf br uA uS uB : ℚ) :
    (p.update dt sw lf br uA uS uB).swirl_variation = p.swirl_variation :=
  update_swirl_variation p dt sw lf br uA uS uB

/-- C10: at simulator construction the level index is 2, and index 2 names
level EF2. -/
theorem C10_initial_level_EF2 (ps : List Particle) :
    (initSimState ps).level_index = 2 ∧
    level_names.get? (initSimState ps).level_index = some "EF2" :=
  ⟨rfl, rfl⟩

/-- C3: a single update tick adds exactly `swirl · dt · swirlVariation` to
the angle and `lift · dt · (0.4 + 0.6 · radiusSeed)` to the altitude when
the wrap threshold is not crossed; with the table's EF2 parameters and
`dt = 1/60` the angle increase is exactly `2.2 · (1/60) · swirlVariation`. -/
theorem C3_single_tick_increments :
    (∀ (p : Particle) (t : Tick),
        p.altitude + t.lift * t.dt * (0.4 + 0.6 * p.radius_seed) ≤ MAX_TORNADO_HEIGHT →
        (stepTick p t).angle = p.angle + t.swirl * t.dt * p.swirl_variation ∧
        (stepTick p t).altitude =
          p.altitude + t.lift * t.dt * (0.4 + 0.6 * p.radius_seed)) ∧
    (∀ (p : Particle) (L : Level) (uA uS uB : ℚ),
        currentLevel 2 = some L →
        p.altitude + L.lift * (1/60) * (0.4 + 0.6 * p.radius_seed) ≤ MAX_TORNADO_HEIGHT →
        (p.update (1/60) L.swirl L.lift L.base_radius uA uS uB).angle =
          p.angle + 2.2 * (1/60) * p.swirl_variation) := by
  constructor
  · intro p t h
    rw [stepTick, update_of_no_wrap p t.dt t.swirl t.lift t.base_radius t.uAngle t.uSeed
      t.uBright h]
    exact ⟨rfl, rfl⟩
  · intro p L uA uS uB hL h
    have hL2 : L = ⟨2.2, 200.0, 180.0, 0.26, (210, 220, 230)⟩ :=
      (Option.some_injective Level ((rfl : currentLevel 2 = _).symm.trans hL)).symm
    subst hL2
    rw [update_of_no_wrap p (1/60) 2.2 200.0 180.0 uA uS uB h]

/-- Witness for C3 at a concrete particle and the EF2 tick. -/
theorem C3_single_tick_increments_witness :
    (stepTick ⟨0.5, 0, 0, 1, 0.7⟩ ⟨1/60, 2.2, 200.0, 180.0, 0, 0, 0⟩).angle =
      0 + 2.2 * (1/60) * 1 ∧
    (stepTick ⟨0.5, 0, 0, 1, 0.7⟩ ⟨1/60, 2.2, 200.0, 180.0, 0, 0, 0⟩).altitude =
      0 + 200.0 * (1/60) * (0.4 + 0.6 * 0.5) :=
  C3_single_tick_increments.1 ⟨0.5, 0, 0, 1, 0.7⟩ ⟨1/60, 2.2, 200.0, 180.0, 0, 0, 0⟩
    (by norm_num [MAX_TORNADO_HEIGHT_eq])

end Tornado
